import Mathlib

/-!
Shallow embedding of the pi_iowrap digital-I/O layer: the generic
interface contract (base.py), the MCP23017 expander interface with its
register codec and polling listener thread (mcp.py), the native-pin
interface (pi.py) and the port proxy (port.py).

Python exceptions are modelled by an explicit error type.  Operations
that mutate interface state return the mutated state together with an
outcome, reflecting that Python keeps the mutations performed up to the
point where an exception is raised.  Application callbacks are modelled
by numeric identifiers; an `Invocation` records a callback being called
with its two arguments (port, value).  Hardware collaborators (the SMBus
register file and the RPi.GPIO pins) are modelled as explicit state.
-/

namespace Iowrap

/-- Python exception kinds raised by the embedded code: the module's own
`InvalidPortNumberError` and base `Error` (exceptions.py), plus the
runtime errors Python itself raises (IndexError on a list index out of
range, AttributeError on reading a never-assigned attribute).  Exception
message strings are elided. -/
inductive PyError where
  | invalidPortNumber
  | indexError
  | attributeError
  | genericError
deriving DecidableEq

/-- Equality of Python outcomes is decidable componentwise. -/
instance {ε α : Type} [DecidableEq ε] [DecidableEq α] : DecidableEq (Except ε α) := fun a b =>
  match a, b with
  | Except.ok x, Except.ok y =>
      if h : x = y then isTrue (by rw [h]) else isFalse (fun hh => h (by injection hh))
  | Except.ok _, Except.error _ => isFalse (fun hh => Except.noConfusion hh)
  | Except.error _, Except.ok _ => isFalse (fun hh => Except.noConfusion hh)
  | Except.error e1, Except.error e2 =>
      if h : e1 = e2 then isTrue (by rw [h]) else isFalse (fun hh => h (by injection hh))

/-- Direction registry values (base.py `_INPUT` / `_OUTPUT`); `none`
models the initial Python `None` entries. -/
inductive Dir where
  | input
  | output
deriving DecidableEq

/-- InOutInterface.HIGH = 1 (base.py). -/
def HIGH : Nat := 1

/-- InOutInterface.LOW = 0 (base.py). -/
def LOW : Nat := 0

/-- Settings.IS_NO_HARDWARE_MODE (base.py), default False. -/
def IS_NO_HARDWARE_MODE : Bool := false

/-- Settings.READ_SWITCH_DEBOUNCE (base.py): debounce window in ms. -/
def READ_SWITCH_DEBOUNCE : Nat := 200

/-- The seconds argument of `time.sleep(READ_SWITCH_DEBOUNCE / 1000)` in the
mcp.py polling loop.  The code is Python 2 (it uses `iteritems`), where `/`
on ints is integer division, so this is 200 / 1000 = 0. -/
def DEBOUNCE_SLEEP_SECONDS : Nat := READ_SWITCH_DEBOUNCE / 1000

/-- Python list subscript `l[i]` with an int index: non-negative indexing,
negative indexing from the back, IndexError otherwise. -/
def pyGet {α : Type} (l : List α) (i : Int) : Except PyError α :=
  let j : Int := if i < 0 then i + l.length else i
  if h : 0 ≤ j ∧ j.toNat < l.length then Except.ok (l.get ⟨j.toNat, h.2⟩)
  else Except.error PyError.indexError

/-- Python list subscript assignment `l[i] = a`.  In the embedded code it is
only reached after index validation, so the out-of-range case (identity
here) never arises. -/
def pySet {α : Type} (l : List α) (i : Int) (a : α) : List α :=
  let j : Int := if i < 0 then i + l.length else i
  l.set j.toNat a

/-- Python dict lookup (`d.get(k)` / `d[k]`), keyed by port number. -/
def dictFind {α : Type} (d : List (Int × α)) (k : Int) : Option α :=
  match d with
  | [] => none
  | kv :: rest => if kv.1 = k then some kv.2 else dictFind rest k

/-- In-place mutation of the dict value at key `k` (Python objects are
mutated through the reference stored in the dict). -/
def dictUpdate {α : Type} (d : List (Int × α)) (k : Int) (f : α → α) : List (Int × α) :=
  d.map (fun kv => if kv.1 = k then (kv.1, f kv.2) else kv)

/-- Python dict insertion `d[k] = v` for a fresh key. -/
def dictInsert {α : Type} (d : List (Int × α)) (k : Int) (v : α) : List (Int × α) :=
  d ++ [(k, v)]

/-- Python `del d[k]`. -/
def dictRemove {α : Type} (d : List (Int × α)) (k : Int) : List (Int × α) :=
  d.filter (fun kv => decide (kv.1 ≠ k))

/-- One callback invocation: `callback(port, value)`. -/
structure Invocation where
  callback : Nat
  port_number : Int
  value : Nat
deriving DecidableEq

/-- Listener state for one port (mcp.py `_PortListener`, and base.py
`PortListener`, which has the identical fields): the port it watches, the
last read value, and the registered callback lists. -/
structure PortListener where
  port_number : Int
  last_read_value : Nat
  rising_callbacks : List Nat
  falling_callbacks : List Nat
deriving DecidableEq

/-- `_PortListener.add_rising_callback`: append preserves registration order. -/
def PortListener.add_rising_callback (l : PortListener) (cb : Nat) : PortListener :=
  { l with rising_callbacks := l.rising_callbacks ++ [cb] }

/-- `_PortListener.add_falling_callback`. -/
def PortListener.add_falling_callback (l : PortListener) (cb : Nat) : PortListener :=
  { l with falling_callbacks := l.falling_callbacks ++ [cb] }

/-- `_PortListener.clear_callbacks`. -/
def PortListener.clear_callbacks (l : PortListener) : PortListener :=
  { l with rising_callbacks := [], falling_callbacks := [] }

/-- mcp.py `_PortListener.get_callbacks_to_trigger`.  `read` stands for
`self.port.value` (a hardware read at this instant).  Returns the callbacks
to trigger and the mutated listener; note the source commits
`self.last_read_value = new_value` here, before any debounce confirmation. -/
def PortListener.get_callbacks_to_trigger (l : PortListener) (read : Int → Nat) :
    List Nat × PortListener :=
  if l.rising_callbacks = [] ∧ l.falling_callbacks = [] then ([], l)
  else
    let new_value := read l.port_number
    if new_value ≠ l.last_read_value then
      let to_trigger :=
        (if new_value = HIGH ∧ l.last_read_value = LOW then l.rising_callbacks else []) ++
        (if new_value = LOW ∧ l.last_read_value = HIGH then l.falling_callbacks else [])
      (to_trigger, { l with last_read_value := new_value })
    else ([], l)

/-- mcp.py `_PortListener.has_changed`: true if the port value read now
differs from `last_read_value`. -/
def PortListener.has_changed (l : PortListener) (read : Int → Nat) : Bool :=
  decide (read l.port_number ≠ l.last_read_value)

/-- State of `_MCP23017ListenerThread` (mcp.py): the per-port listener dict
and the `_stop` attribute.  `__init__` never assigns `_stop` (and
Python 2's threading.Thread defines no such attribute), so it is modelled
as `Option Bool`, `none` meaning "never assigned": reading it raises
AttributeError. -/
structure ListenerThread where
  listeners_by_port_number : List (Int × PortListener)
  stop_flag : Option Bool
deriving DecidableEq

/-- A freshly constructed `_MCP23017ListenerThread`. -/
def ListenerThread.new : ListenerThread :=
  { listeners_by_port_number := [], stop_flag := none }

/-- `_MCP23017ListenerThread.stop`: `self._stop = True`. -/
def ListenerThread.stop (t : ListenerThread) : ListenerThread :=
  { t with stop_flag := some true }

/-- `_MCP23017ListenerThread.has_any_events`: `bool(self._listeners_by_port_number)`. -/
def ListenerThread.has_any_events (t : ListenerThread) : Bool :=
  !t.listeners_by_port_number.isEmpty

/-- `_MCP23017ListenerThread.on_rising`.  The source is
`self._listeners_by_port_number.get(port.number, _PortListener(port)).add_rising_callback(callback)`:
when the key is absent, `dict.get` returns the freshly built default
`_PortListener` (whose constructor reads `port.value`), the callback is
added to that temporary object, and the object is discarded — the dict is
never written, so the registration is lost.  When the key is present the
stored listener is mutated in place. -/
def ListenerThread.on_rising (t : ListenerThread) (p : Int) (cb : Nat) : ListenerThread :=
  match dictFind t.listeners_by_port_number p with
  | some _ =>
      { t with listeners_by_port_number :=
          dictUpdate t.listeners_by_port_number p (fun l => l.add_rising_callback cb) }
  | none => t

/-- `_MCP23017ListenerThread.on_falling`: same shape (and same lost-default
behaviour) as `on_rising`. -/
def ListenerThread.on_falling (t : ListenerThread) (p : Int) (cb : Nat) : ListenerThread :=
  match dictFind t.listeners_by_port_number p with
  | some _ =>
      { t with listeners_by_port_number :=
          dictUpdate t.listeners_by_port_number p (fun l => l.add_falling_callback cb) }
  | none => t

/-- `_MCP23017ListenerThread.clear_events`: if the port has a listener in
the dict, empty its callback lists (the dict entry itself stays). -/
def ListenerThread.clear_events (t : ListenerThread) (p : Int) : ListenerThread :=
  match dictFind t.listeners_by_port_number p with
  | some _ =>
      { t with listeners_by_port_number :=
          dictUpdate t.listeners_by_port_number p PortListener.clear_callbacks }
  | none => t

/-- One iteration of the `while` body of `_MCP23017ListenerThread.run`.
`read1` is the port-value sampling during the `get_callbacks_to_trigger`
sweep; `read2` is the re-read after the debounce `time.sleep` (which, per
`DEBOUNCE_SLEEP_SECONDS`, actually lasts 0 seconds).  Returns the mutated
thread state and the callback invocations performed this tick. -/
def ListenerThread.tick (t : ListenerThread) (read1 read2 : Int → Nat) :
    ListenerThread × List Invocation :=
  let processed := t.listeners_by_port_number.map
    (fun kv =>
      let r := kv.2.get_callbacks_to_trigger read1
      (kv.1, r.2, r.1))
  let t1 : ListenerThread :=
    { t with listeners_by_port_number := processed.map (fun x => (x.1, x.2.1)) }
  let trigger_data := processed.filter (fun x => !x.2.2.isEmpty)
  let invocations :=
    if trigger_data.isEmpty then []
    else trigger_data.flatMap (fun x =>
      if x.2.1.has_changed read2 then []
      else x.2.2.map (fun cb =>
        { callback := cb, port_number := x.2.1.port_number, value := x.2.1.last_read_value }))
  (t1, invocations)

/-- The SMBus register file of one MCP23017 chip, plus the chip behaviour
the code relies on: `write_byte_data` latches the byte for its register and
`read_byte_data` on an input-level register (0x12 GPIOA / 0x13 GPIOB)
reads back the corresponding output latch (0x14 OLATA / 0x15 OLATB), per
the spec's collaborator contract that register readback reflects the last
written state of driven ports. -/
structure Bus where
  regs : Nat → Nat

/-- `bus.write_byte_data(address, register, value)` for the single modelled
chip address. -/
def Bus.write_byte_data (b : Bus) (register value : Nat) : Bus :=
  { regs := fun r => if r = register then value else b.regs r }

/-- `bus.read_byte_data(address, register)`: input-level registers reflect
the output latches (see `Bus`); other registers return the latched byte. -/
def Bus.read_byte_data (b : Bus) (register : Nat) : Nat :=
  if register = 0x12 then b.regs 0x14
  else if register = 0x13 then b.regs 0x15
  else b.regs register

/-- A bus whose registers all read zero. -/
def Bus.zero : Bus := { regs := fun _ => 0 }

/-- State of one MCP23017 interface instance: the 1-based direction
registry of length 17 (index 0 unused), the `_read_events_thread` slot and
the bus.  The `_ports` list is implicit: port `n` for `1 ≤ n ≤ 16` is the
pair (this interface, `n`). -/
structure MCPState where
  in_out_registry : List (Option Dir)
  read_events_thread : Option ListenerThread
  bus : Bus

/-- The GPA/GPB bank names (mcp.py `_PART_A` / `_PART_B`). -/
inductive Part where
  | A
  | B
deriving DecidableEq

/-- `MCP23017._get_part`. -/
def MCP23017.get_part (p : Int) : Part :=
  if p ≤ 8 then Part.A else Part.B

/-- `MCP23017._get_write_register`: 0x14 for GPA, 0x15 for GPB. -/
def MCP23017.get_write_register (p : Int) : Nat :=
  match MCP23017.get_part p with
  | Part.A => 0x14
  | Part.B => 0x15

/-- `MCP23017._get_read_register`: 0x12 for GPA, 0x13 for GPB. -/
def MCP23017.get_read_register (p : Int) : Nat :=
  match MCP23017.get_part p with
  | Part.A => 0x12
  | Part.B => 0x13

/-- `MCP23017._get_setas_register`: 0x00 for GPA, 0x01 for GPB. -/
def MCP23017.get_setas_register (p : Int) : Nat :=
  match MCP23017.get_part p with
  | Part.A => 0x00
  | Part.B => 0x01

/-- The `start_port_number` local of `_get_binary_string_for_value`:
1 for bank A, 9 for bank B. -/
def MCP23017.start_port_number (p : Int) : Int :=
  if MCP23017.get_part p = Part.B then 9 else 1

/-- The `binary_value` list built by `_get_binary_string_for_value`:
digit `i` corresponds to port `start_port_number + i`; the target port
contributes the written value, every sibling the value supplied by
`siblings_value_getter`. -/
def MCP23017.binary_value_digits (p : Int) (value : Nat) (getter : Int → Nat) : List Nat :=
  (List.range 8).map (fun (i : Nat) =>
    if MCP23017.start_port_number p + (i : Int) = p then (if value = HIGH then 1 else 0)
    else (if getter (MCP23017.start_port_number p + (i : Int)) = HIGH then 1 else 0))

/-- `int(s, 2)` for a binary digit string (most significant digit first). -/
def parse_binary (digits : List Nat) : Nat :=
  digits.foldl (fun a d => 2 * a + d) 0

/-- `MCP23017._get_binary_string_for_value` composed with the `int(s, 2)`
decoding performed at the write site: the digit list is reversed before
joining, so the lowest port of the bank lands in the least significant
bit. -/
def MCP23017.get_binary_string_for_value (p : Int) (value : Nat) (getter : Int → Nat) : Nat :=
  parse_binary (MCP23017.binary_value_digits p value getter).reverse

/-- `InOutInterface._validate_port_number` for the 16-port expander
(`len(self._ports)` = 17). -/
def MCP23017.validate_port_number (p : Int) : Except PyError Unit :=
  if p ≤ 0 then Except.error PyError.invalidPortNumber
  else if p ≥ 17 then Except.error PyError.invalidPortNumber
  else Except.ok ()

/-- `InOutInterface._validate_write_port_number`: raises when the registry
entry is INPUT.  The registry subscript itself may raise IndexError. -/
def MCP23017.validate_write_port_number (s : MCPState) (p : Int) : Except PyError Unit :=
  match pyGet s.in_out_registry p with
  | Except.error e => Except.error e
  | Except.ok d =>
      if d = some Dir.input then Except.error PyError.invalidPortNumber else Except.ok ()

/-- `InOutInterface._validate_listen_port_number`: raises when the registry
entry is OUTPUT.  The registry subscript itself may raise IndexError. -/
def MCP23017.validate_listen_port_number (s : MCPState) (p : Int) : Except PyError Unit :=
  match pyGet s.in_out_registry p with
  | Except.error e => Except.error e
  | Except.ok d =>
      if d = some Dir.output then Except.error PyError.invalidPortNumber else Except.ok ()

/-- `MCP23017.get_value`: validate, read the bank's input register as a
byte, take the bit at `(port_number - 1) % 8` (the source formats the byte
as a binary string, reverses it and indexes it, which is exactly bit
extraction), decode 0 to LOW and 1 to HIGH, anything else is fatal. -/
def MCP23017.get_value (s : MCPState) (p : Int) : Except PyError Nat :=
  match MCP23017.validate_port_number p with
  | Except.error e => Except.error e
  | Except.ok _ =>
      if IS_NO_HARDWARE_MODE then Except.ok LOW
      else
        let byte := Bus.read_byte_data s.bus (MCP23017.get_read_register p)
        let bit := byte / 2 ^ ((p - 1) % 8).toNat % 2
        if bit = 0 then Except.ok LOW
        else if bit = 1 then Except.ok HIGH
        else Except.error PyError.genericError

/-- `MCP23017._set_value`: compose the bank byte and write it to the given
register (IS_NO_HARDWARE_MODE is False, so the write happens). -/
def MCP23017.set_value (s : MCPState) (p : Int) (register value : Nat)
    (getter : Int → Nat) : MCPState :=
  { s with bus :=
      Bus.write_byte_data s.bus register (MCP23017.get_binary_string_for_value p value getter) }

/-- The `lambda x: self.HIGH if x.is_high else self.LOW` sibling getter of
`set_high` / `set_low`: reads the sibling's current value from the bus. -/
def MCP23017.value_getter (s : MCPState) : Int → Nat :=
  fun q => if MCP23017.get_value s q = Except.ok HIGH then HIGH else LOW

/-- The `lambda x: self.HIGH if x.is_input else self.LOW` sibling getter of
`set_as_input` / `set_as_output`: reads the sibling's direction registry
entry. -/
def MCP23017.direction_getter (s : MCPState) : Int → Nat :=
  fun q => if pyGet s.in_out_registry q = Except.ok (some Dir.input) then HIGH else LOW

/-- `MCP23017.set_high`. -/
def MCP23017.set_high (s : MCPState) (p : Int) : MCPState × Except PyError Unit :=
  match MCP23017.validate_port_number p with
  | Except.error e => (s, Except.error e)
  | Except.ok _ =>
      match MCP23017.validate_write_port_number s p with
      | Except.error e => (s, Except.error e)
      | Except.ok _ =>
          (MCP23017.set_value s p (MCP23017.get_write_register p) HIGH
            (MCP23017.value_getter s), Except.ok ())

/-- `MCP23017.set_low`. -/
def MCP23017.set_low (s : MCPState) (p : Int) : MCPState × Except PyError Unit :=
  match MCP23017.validate_port_number p with
  | Except.error e => (s, Except.error e)
  | Except.ok _ =>
      match MCP23017.validate_write_port_number s p with
      | Except.error e => (s, Except.error e)
      | Except.ok _ =>
          (MCP23017.set_value s p (MCP23017.get_write_register p) LOW
            (MCP23017.value_getter s), Except.ok ())

/-- `MCP23017._get_events_thread`: returns the existing thread, otherwise
assigns a fresh `_MCP23017ListenerThread` to `self._read_events_thread` and
calls `run()` directly (not `start()`).  `run` immediately evaluates
`while not self._stop`, and `_stop` was never assigned, so the call raises
AttributeError — after the slot was already assigned. -/
def MCP23017.get_events_thread (s : MCPState) : MCPState × Except PyError ListenerThread :=
  match s.read_events_thread with
  | some t => (s, Except.ok t)
  | none =>
      let t := ListenerThread.new
      ({ s with read_events_thread := some t }, Except.error PyError.attributeError)

/-- `MCP23017.clear_read_events`: fetch (or create) the events thread,
clear the port's callbacks, and if the thread has no events left, stop it
and drop the reference. -/
def MCP23017.clear_read_events (s : MCPState) (p : Int) : MCPState × Except PyError Unit :=
  match MCP23017.get_events_thread s with
  | (s1, Except.error e) => (s1, Except.error e)
  | (s1, Except.ok t) =>
      match MCP23017.validate_port_number p with
      | Except.error e => (s1, Except.error e)
      | Except.ok _ =>
          let t1 := t.clear_events p
          if t1.has_any_events then
            ({ s1 with read_events_thread := some t1 }, Except.ok ())
          else
            let _stopped := t1.stop
            ({ s1 with read_events_thread := none }, Except.ok ())

/-- `MCP23017.add_event`: direction check first (no bounds check), then
thread fetch/creation, then registration of each supplied callback
through `self.get_port(port_number)` (which validates the port number). -/
def MCP23017.add_event (s : MCPState) (p : Int) (rcb fcb : Option Nat) :
    MCPState × Except PyError Unit :=
  match MCP23017.validate_listen_port_number s p with
  | Except.error e => (s, Except.error e)
  | Except.ok _ =>
      match MCP23017.get_events_thread s with
      | (s1, Except.error e) => (s1, Except.error e)
      | (s1, Except.ok t) =>
          match rcb with
          | some cb =>
              (match MCP23017.validate_port_number p with
              | Except.error e => ({ s1 with read_events_thread := some t }, Except.error e)
              | Except.ok _ =>
                  let t1 := t.on_rising p cb
                  match fcb with
                  | some cb2 =>
                      (match MCP23017.validate_port_number p with
                      | Except.error e =>
                          ({ s1 with read_events_thread := some t1 }, Except.error e)
                      | Except.ok _ =>
                          ({ s1 with read_events_thread := some (t1.on_falling p cb2) },
                            Except.ok ()))
                  | none => ({ s1 with read_events_thread := some t1 }, Except.ok ()))
          | none =>
              match fcb with
              | some cb2 =>
                  (match MCP23017.validate_port_number p with
                  | Except.error e => ({ s1 with read_events_thread := some t }, Except.error e)
                  | Except.ok _ =>
                      ({ s1 with read_events_thread := some (t.on_falling p cb2) },
                        Except.ok ()))
              | none => ({ s1 with read_events_thread := some t }, Except.ok ())

/-- `MCP23017.set_as_input`: write the direction byte, then record INPUT in
the registry. -/
def MCP23017.set_as_input (s : MCPState) (p : Int) : MCPState × Except PyError Unit :=
  match MCP23017.validate_port_number p with
  | Except.error e => (s, Except.error e)
  | Except.ok _ =>
      let s1 := MCP23017.set_value s p (MCP23017.get_setas_register p) HIGH
        (MCP23017.direction_getter s)
      ({ s1 with in_out_registry := pySet s1.in_out_registry p (some Dir.input) }, Except.ok ())

/-- `MCP23017.set_as_output`: write the direction byte, record OUTPUT in the
registry, then `clear_read_events` (which may raise). -/
def MCP23017.set_as_output (s : MCPState) (p : Int) : MCPState × Except PyError Unit :=
  match MCP23017.validate_port_number p with
  | Except.error e => (s, Except.error e)
  | Except.ok _ =>
      let s1 := MCP23017.set_value s p (MCP23017.get_setas_register p) LOW
        (MCP23017.direction_getter s)
      let s2 := { s1 with in_out_registry := pySet s1.in_out_registry p (some Dir.output) }
      MCP23017.clear_read_events s2 p

/-- `Port.initialize` (port.py): `set_as_output` then `set_low`. -/
def MCP23017.port_init (s : MCPState) (n : Int) : MCPState × Except PyError Unit :=
  match MCP23017.set_as_output s n with
  | (s1, Except.error e) => (s1, Except.error e)
  | (s1, Except.ok _) => MCP23017.set_low s1 n

/-- `MCP23017.__init__(address)`: a length-17 registry of `None`, no events
thread, then `_initialize_ports`, which runs `Port.initialize` on every
non-None port (ports 1..16).  An exception raised by a port's
initialisation propagates out of the constructor. -/
def MCP23017.construct : MCPState × Except PyError Unit :=
  let s0 : MCPState :=
    { in_out_registry := List.replicate 17 none, read_events_thread := none, bus := Bus.zero }
  (List.range 17).foldl
    (fun acc n =>
      match acc with
      | (s, Except.error e) => (s, Except.error e)
      | (s, Except.ok _) =>
          if n = 0 then (s, Except.ok ()) else MCP23017.port_init s (n : Int))
    (s0, Except.ok ())

/-- The listener dict of the interface's events thread ([] when no thread
is attached). -/
def MCP23017.thread_listeners (s : MCPState) : List (Int × PortListener) :=
  match s.read_events_thread with
  | some t => t.listeners_by_port_number
  | none => []

/-- PiInterface._GROUND (pi.py). -/
def PiInterface.GROUND : List Int := [6, 9, 14, 20, 25, 30, 34, 39]

/-- PiInterface._POWER_5V. -/
def PiInterface.POWER_5V : List Int := [2, 4]

/-- PiInterface._POWER_3V3. -/
def PiInterface.POWER_3V3 : List Int := [1, 17]

/-- PiInterface._I2C. -/
def PiInterface.I2C : List Int := [3, 5, 27, 28]

/-- PiInterface._FORBIDDEN: concatenation in source order. -/
def PiInterface.FORBIDDEN : List Int :=
  PiInterface.GROUND ++ PiInterface.POWER_5V ++ PiInterface.POWER_3V3 ++ PiInterface.I2C

/-- The RPi.GPIO pin state: last written level per pin; `input` reads it
back (the collaborator contract for an output-driven pin). -/
structure GpioHw where
  pins : Int → Nat

/-- `gpio.output(pin, level)`. -/
def GpioHw.output (h : GpioHw) (p : Int) (v : Nat) : GpioHw :=
  { pins := fun x => if x = p then v else h.pins x }

/-- State of the PiInterface: direction registry of length 41 (index 0
unused, reserved pins have no Port), the `_port_listeners` dict, the set of
pins with a registered `gpio.add_event_detect`, and the pin state. -/
structure PiState where
  in_out_registry : List (Option Dir)
  port_listeners : List (Int × PortListener)
  gpio_events : List Int
  hw : GpioHw

/-- `PiInterface._validate_port_number`: the base bounds check
(`len(self._ports)` = 41), then the reserved-pin checks in source order
(GROUND, 3V3, 5V, I2C, FORBIDDEN), each raising InvalidPortNumberError. -/
def PiInterface.validate_port_number (p : Int) : Except PyError Unit :=
  if p ≤ 0 then Except.error PyError.invalidPortNumber
  else if p ≥ 41 then Except.error PyError.invalidPortNumber
  else if PiInterface.GROUND.contains p then Except.error PyError.invalidPortNumber
  else if PiInterface.POWER_3V3.contains p then Except.error PyError.invalidPortNumber
  else if PiInterface.POWER_5V.contains p then Except.error PyError.invalidPortNumber
  else if PiInterface.I2C.contains p then Except.error PyError.invalidPortNumber
  else if PiInterface.FORBIDDEN.contains p then Except.error PyError.invalidPortNumber
  else Except.ok ()

/-- `InOutInterface._validate_write_port_number` for the PiInterface. -/
def PiInterface.validate_write_port_number (s : PiState) (p : Int) : Except PyError Unit :=
  match pyGet s.in_out_registry p with
  | Except.error e => Except.error e
  | Except.ok d =>
      if d = some Dir.input then Except.error PyError.invalidPortNumber else Except.ok ()

/-- `PiInterface.get_value`: validate, then `gpio.input(port_number)`
decoded to HIGH/LOW. -/
def PiInterface.get_value (s : PiState) (p : Int) : Except PyError Nat :=
  match PiInterface.validate_port_number p with
  | Except.error e => Except.error e
  | Except.ok _ =>
      if IS_NO_HARDWARE_MODE then Except.ok LOW
      else Except.ok (if s.hw.pins p = HIGH then HIGH else LOW)

/-- `PiInterface._gpio_output`: validate, then write the pin level. -/
def PiInterface.gpio_output (s : PiState) (p : Int) (value : Nat) :
    PiState × Except PyError Unit :=
  match PiInterface.validate_port_number p with
  | Except.error e => (s, Except.error e)
  | Except.ok _ =>
      ({ s with hw := s.hw.output p (if value = HIGH then HIGH else LOW) }, Except.ok ())

/-- `PiInterface.set_high`. -/
def PiInterface.set_high (s : PiState) (p : Int) : PiState × Except PyError Unit :=
  match PiInterface.validate_port_number p with
  | Except.error e => (s, Except.error e)
  | Except.ok _ =>
      match PiInterface.validate_write_port_number s p with
      | Except.error e => (s, Except.error e)
      | Except.ok _ => PiInterface.gpio_output s p HIGH

/-- `PiInterface.set_low`. -/
def PiInterface.set_low (s : PiState) (p : Int) : PiState × Except PyError Unit :=
  match PiInterface.validate_port_number p with
  | Except.error e => (s, Except.error e)
  | Except.ok _ =>
      match PiInterface.validate_write_port_number s p with
      | Except.error e => (s, Except.error e)
      | Except.ok _ => PiInterface.gpio_output s p LOW

/-- `PiInterface.set_as_input`: `_gpio_setup` (which validates and
configures the pin with the pull resistor), then record INPUT.  Listener
registries are untouched. -/
def PiInterface.set_as_input (s : PiState) (p : Int) : PiState × Except PyError Unit :=
  match PiInterface.validate_port_number p with
  | Except.error e => (s, Except.error e)
  | Except.ok _ =>
      ({ s with in_out_registry := pySet s.in_out_registry p (some Dir.input) }, Except.ok ())

/-- `PiInterface.set_as_output`: `_gpio_setup`, then record OUTPUT.  Note
the source does not touch `_port_listeners` or the gpio event
registration. -/
def PiInterface.set_as_output (s : PiState) (p : Int) : PiState × Except PyError Unit :=
  match PiInterface.validate_port_number p with
  | Except.error e => (s, Except.error e)
  | Except.ok _ =>
      ({ s with in_out_registry := pySet s.in_out_registry p (some Dir.output) }, Except.ok ())

/-- `PiInterface.add_event`: no direction check.  An existing listener is
fetched from `_port_listeners` without any validation; otherwise
`_PiPortListener(self.get_port(port_number))` validates the port number,
reads `port.value` as the initial `last_read_value`, a gpio interrupt is
registered with BOTH edges and the debounce time, and the listener is
stored in the dict.  Then the supplied callbacks are appended. -/
def PiInterface.add_event (s : PiState) (p : Int) (rcb fcb : Option Nat) :
    PiState × Except PyError Unit :=
  match dictFind s.port_listeners p with
  | some _ =>
      let d1 := match rcb with
        | some cb => dictUpdate s.port_listeners p (fun l => l.add_rising_callback cb)
        | none => s.port_listeners
      let d2 := match fcb with
        | some cb => dictUpdate d1 p (fun l => l.add_falling_callback cb)
        | none => d1
      ({ s with port_listeners := d2 }, Except.ok ())
  | none =>
      match PiInterface.validate_port_number p with
      | Except.error e => (s, Except.error e)
      | Except.ok _ =>
          match PiInterface.get_value s p with
          | Except.error e => (s, Except.error e)
          | Except.ok v =>
              let l0 : PortListener :=
                { port_number := p, last_read_value := v,
                  rising_callbacks := [], falling_callbacks := [] }
              let d0 := dictInsert s.port_listeners p l0
              let d1 := match rcb with
                | some cb => dictUpdate d0 p (fun l => l.add_rising_callback cb)
                | none => d0
              let d2 := match fcb with
                | some cb => dictUpdate d1 p (fun l => l.add_falling_callback cb)
                | none => d1
              ({ s with port_listeners := d2, gpio_events := s.gpio_events ++ [p] },
                Except.ok ())

/-- `PiInterface.clear_read_events`: `gpio.remove_event_detect`, then delete
the listener dict entry if present.  No validation. -/
def PiInterface.clear_read_events (s : PiState) (p : Int) : PiState × Except PyError Unit :=
  let s1 := { s with gpio_events := s.gpio_events.filter (fun x => decide (x ≠ p)) }
  match dictFind s1.port_listeners p with
  | some _ => ({ s1 with port_listeners := dictRemove s1.port_listeners p }, Except.ok ())
  | none => (s1, Except.ok ())

/-- `_PiPortListener.get_callbacks_to_trigger` (pi.py): an early empty
return when no callbacks are registered at all; otherwise the value read
at invocation time selects a branch (HIGH: the rising list, LOW: the
falling list), and each branch's `logging.debug` call eagerly evaluates
`self.port.interface` — an attribute `Port` does not define (it stores
only `_interface`, with no property for it) — so the dispatch raises
AttributeError before the selected callbacks are returned.  The final
fall-through (a value that is neither HIGH nor LOW, which `get_value`
never produces) returns the empty accumulator. -/
def PiPortListener.get_callbacks_to_trigger (l : PortListener) (port_value : Nat) :
    Except PyError (List Nat) :=
  if l.rising_callbacks = [] ∧ l.falling_callbacks = [] then Except.ok []
  else if port_value = HIGH then Except.error PyError.attributeError
  else if port_value = LOW then Except.error PyError.attributeError
  else Except.ok []

/-- `PortListener.trigger_callbacks` (base.py), as dispatched by the gpio
interrupt collaborator for a `_PiPortListener`: the AttributeError from
`get_callbacks_to_trigger` propagates; otherwise each selected callback is
called with `(self.port, self.last_read_value)`. -/
def PiPortListener.trigger_callbacks (l : PortListener) (port_value : Nat) :
    Except PyError (List Invocation) :=
  match PiPortListener.get_callbacks_to_trigger l port_value with
  | Except.error e => Except.error e
  | Except.ok cbs =>
      Except.ok (cbs.map
        (fun cb => { callback := cb, port_number := l.port_number, value := l.last_read_value }))

/-- Whether PiInterface.__init__ creates a Port for number `n`
(`1 ≤ n ≤ 40` and not in `_FORBIDDEN`). -/
def PiInterface.port_exists (n : Nat) : Bool :=
  decide (1 ≤ n) && decide (n ≤ 40) && !(PiInterface.FORBIDDEN.contains (n : Int))

/-- `Port.initialize` for the PiInterface. -/
def PiInterface.port_init (s : PiState) (n : Int) : PiState × Except PyError Unit :=
  match PiInterface.set_as_output s n with
  | (s1, Except.error e) => (s1, Except.error e)
  | (s1, Except.ok _) => PiInterface.set_low s1 n

/-- `PiInterface.__init__`: a length-41 registry of `None`, Ports for the
non-forbidden numbers 1..40, empty listener registries, then
`_initialize_ports` runs `Port.initialize` on every created Port. -/
def PiInterface.construct : PiState × Except PyError Unit :=
  let s0 : PiState :=
    { in_out_registry := List.replicate 41 none, port_listeners := [],
      gpio_events := [], hw := { pins := fun _ => 0 } }
  (List.range 41).foldl
    (fun acc n =>
      match acc with
      | (s, Except.error e) => (s, Except.error e)
      | (s, Except.ok _) =>
          if PiInterface.port_exists n then PiInterface.port_init s (n : Int)
          else (s, Except.ok ()))
    (s0, Except.ok ())

/-- Little-endian reading of a binary digit list; proof-side counterpart of
`parse_binary` applied to the reversed digit list (see
`parse_binary_reverse`). -/
def parse_binary_le : List Nat → Nat
  | [] => 0
  | d :: ds => d + 2 * parse_binary_le ds

/-- A 16-port expander state with every port configured as output, no
events thread, and all bus registers zero (the state MCP23017.__init__ is
meant to reach). -/
def mcpSampleOut : MCPState :=
  { in_out_registry := none :: List.replicate 16 (some Dir.output),
    read_events_thread := none, bus := Bus.zero }

/-- Like `mcpSampleOut` but with port 1 configured as input. -/
def mcpSampleIn1 : MCPState :=
  { in_out_registry := none :: some Dir.input :: List.replicate 15 (some Dir.output),
    read_events_thread := none, bus := Bus.zero }

/-- Like `mcpSampleIn1` but with a listener thread attached to the
interface (as left behind by an earlier events call). -/
def mcpSampleIn1T : MCPState :=
  { mcpSampleIn1 with read_events_thread := some ListenerThread.new }

/-- Like `mcpSampleIn1T` but the thread's dict carries a listener for
port 2 (stable LOW) holding one rising callback, the state the engine
would be in had a rising registration on port 2 taken effect. -/
def sampleListener2Thread : ListenerThread :=
  { listeners_by_port_number :=
      [(2, { port_number := 2, last_read_value := LOW,
             rising_callbacks := [9], falling_callbacks := [] })],
    stop_flag := none }

/-- See `mcpSampleListener2`. -/
def mcpSampleListener2 : MCPState :=
  { mcpSampleIn1 with read_events_thread := some sampleListener2Thread }

/-- A listener-thread state monitoring port 1, stable HIGH, with one
rising callback registered. -/
def glitchThread : ListenerThread :=
  { listeners_by_port_number :=
      [(1, { port_number := 1, last_read_value := HIGH,
             rising_callbacks := [7], falling_callbacks := [] })],
    stop_flag := none }

/-- A native-pin interface state with every port configured as output
except port 7, which is an input; no listeners, all pins low. -/
def piIn7 : PiState :=
  { in_out_registry := (List.replicate 41 (some Dir.output)).set 7 (some Dir.input),
    port_listeners := [], gpio_events := [], hw := { pins := fun _ => 0 } }

/-- A native-pin interface state with every port configured as output;
no listeners, all pins low. -/
def piOut7 : PiState :=
  { in_out_registry := List.replicate 41 (some Dir.output),
    port_listeners := [], gpio_events := [], hw := { pins := fun _ => 0 } }

/-- Folding the binary parser over a reversed digit list gives the
little-endian reading. -/
theorem parse_binary_reverse (l : List Nat) : parse_binary l.reverse = parse_binary_le l := by
  induction l with
  | nil => rfl
  | cons d ds ih =>
      simp only [List.reverse_cons, parse_binary, List.foldl_append, List.foldl_cons,
        List.foldl_nil, parse_binary_le]
      simp only [parse_binary] at ih
      omega

/-- Bit `i` of the little-endian reading of a list of binary digits is the
`i`-th digit. -/
theorem parse_binary_le_digit : ∀ (l : List Nat) (i : Nat), (∀ d ∈ l, d ≤ 1) →
    parse_binary_le l / 2 ^ i % 2 = l.getD i 0
  | [], i, _ => by simp [parse_binary_le]
  | d :: ds, 0, h => by
      have hd : d ≤ 1 := h d (List.mem_cons_self d ds)
      simp only [parse_binary_le, pow_zero, Nat.div_one, List.getD_cons_zero]
      omega
  | d :: ds, i + 1, h => by
      have hd : d ≤ 1 := h d (List.mem_cons_self d ds)
      have ih := parse_binary_le_digit ds i (fun x hx => h x (List.mem_cons_of_mem d hx))
      have h2 : parse_binary_le (d :: ds) / 2 ^ (i + 1) = parse_binary_le ds / 2 ^ i := by
        rw [pow_succ', ← Nat.div_div_eq_div_mul]
        have h3 : parse_binary_le (d :: ds) / 2 = parse_binary_le ds := by
          simp only [parse_binary_le]
          omega
        rw [h3]
      rw [h2, ih, List.getD_cons_succ]

/-- Every digit produced for the register byte is 0 or 1. -/
theorem binary_value_digits_le (p : Int) (v : Nat) (g : Int → Nat) :
    ∀ d ∈ MCP23017.binary_value_digits p v g, d ≤ 1 := by
  intro d hd
  simp only [MCP23017.binary_value_digits, List.mem_map] at hd
  obtain ⟨i, _, rfl⟩ := hd
  split <;> split <;> omega

theorem getD_map_range8 (f : Nat → Nat) (i : Nat) (h : i < 8) :
    ((List.range 8).map f).getD i 0 = f i := by
  interval_cases i <;> rfl

/-- Bit `i` of the composed register byte: the written value at the target
port's position, the sibling getter's value elsewhere — LSB first from the
lowest port of the bank. -/
theorem binary_string_bit (p : Int) (v : Nat) (g : Int → Nat) (i : Nat) (hi : i < 8) :
    MCP23017.get_binary_string_for_value p v g / 2 ^ i % 2 =
      (if MCP23017.start_port_number p + (i : Int) = p then (if v = HIGH then 1 else 0)
       else (if g (MCP23017.start_port_number p + (i : Int)) = HIGH then 1 else 0)) := by
  unfold MCP23017.get_binary_string_for_value
  rw [parse_binary_reverse, parse_binary_le_digit _ _ (binary_value_digits_le p v g)]
  unfold MCP23017.binary_value_digits
  rw [getD_map_range8 _ i hi]

theorem mcp_validate_ok (p : Int) (h1 : 1 ≤ p) (h16 : p ≤ 16) :
    MCP23017.validate_port_number p = Except.ok () := by
  unfold MCP23017.validate_port_number
  rw [if_neg (by omega), if_neg (by omega)]

/-- Writing the composed byte for value `v` to the port's bank register and
then reading the port back decodes the target bit, which is 1 exactly when
`v` is HIGH. -/
theorem mcp_set_get (s : MCPState) (p : Int) (v : Nat) (g : Int → Nat)
    (h1 : 1 ≤ p) (h16 : p ≤ 16) :
    MCP23017.get_value (MCP23017.set_value s p (MCP23017.get_write_register p) v g) p
      = Except.ok (if v = HIGH then HIGH else LOW) := by
  have hi8 : ((p - 1) % 8).toNat < 8 := by omega
  by_cases hp : p ≤ 8
  · have hpart : MCP23017.get_part p = Part.A := by
      unfold MCP23017.get_part; rw [if_pos hp]
    have hstart : MCP23017.start_port_number p = 1 := by
      unfold MCP23017.start_port_number; rw [hpart]; rfl
    have hcond : MCP23017.start_port_number p + (((p - 1) % 8).toNat : Int) = p := by
      rw [hstart]; omega
    have hbit := binary_string_bit p v g ((p - 1) % 8).toNat hi8
    rw [if_pos hcond] at hbit
    simp only [MCP23017.get_value, MCP23017.set_value, mcp_validate_ok p h1 h16,
      IS_NO_HARDWARE_MODE, Bus.read_byte_data, Bus.write_byte_data,
      MCP23017.get_read_register, MCP23017.get_write_register, hpart]
    norm_num
    rw [hbit]
    split_ifs <;> simp_all [HIGH, LOW]
  · have hpart : MCP23017.get_part p = Part.B := by
      unfold MCP23017.get_part; rw [if_neg hp]
    have hstart : MCP23017.start_port_number p = 9 := by
      unfold MCP23017.start_port_number; rw [hpart]; rfl
    have hcond : MCP23017.start_port_number p + (((p - 1) % 8).toNat : Int) = p := by
      rw [hstart]; omega
    have hbit := binary_string_bit p v g ((p - 1) % 8).toNat hi8
    rw [if_pos hcond] at hbit
    simp only [MCP23017.get_value, MCP23017.set_value, mcp_validate_ok p h1 h16,
      IS_NO_HARDWARE_MODE, Bus.read_byte_data, Bus.write_byte_data,
      MCP23017.get_read_register, MCP23017.get_write_register, hpart]
    norm_num
    rw [hbit]
    split_ifs <;> simp_all [HIGH, LOW]

/-- Every failure of the expander port-number validation is an
InvalidPortNumberError. -/
theorem mcp_validate_error (p : Int) (e : PyError)
    (h : MCP23017.validate_port_number p = Except.error e) : e = PyError.invalidPortNumber := by
  unfold MCP23017.validate_port_number at h
  split_ifs at h <;> simp_all

/-- Every failure of the native-pin port-number validation (bounds or any
reserved-pin class) is an InvalidPortNumberError. -/
theorem pi_validate_error (p : Int) (e : PyError)
    (h : PiInterface.validate_port_number p = Except.error e) : e = PyError.invalidPortNumber := by
  unfold PiInterface.validate_port_number at h
  split_ifs at h <;> simp_all

theorem dictFind_dictUpdate {α : Type} (d : List (Int × α)) (k : Int) (f : α → α) :
    dictFind (dictUpdate d k f) k = (dictFind d k).map f := by
  induction d with
  | nil => rfl
  | cons kv rest ih =>
      simp only [dictUpdate, List.map_cons] at *
      by_cases h : kv.1 = k
      · simp [dictFind, h]
      · simp [dictFind, h, ih]

/-- Round trip on the expander: set_high then get_value reads HIGH, set_low
then get_value reads LOW, for a valid port not configured as input. -/
theorem roundtrip_mcp (s : MCPState) (p : Int) (h1 : 1 ≤ p) (h16 : p ≤ 16)
    (hreg : pyGet s.in_out_registry p = Except.ok (some Dir.output)) :
    MCP23017.get_value (MCP23017.set_high s p).1 p = Except.ok HIGH ∧
    MCP23017.get_value (MCP23017.set_low s p).1 p = Except.ok LOW := by
  have hw : MCP23017.validate_write_port_number s p = Except.ok () := by
    unfold MCP23017.validate_write_port_number
    rw [hreg]
    simp
  constructor
  · have h := mcp_set_get s p HIGH (MCP23017.value_getter s) h1 h16
    simp only [MCP23017.set_high, mcp_validate_ok p h1 h16, hw]
    simpa using h
  · have h := mcp_set_get s p LOW (MCP23017.value_getter s) h1 h16
    simp only [MCP23017.set_low, mcp_validate_ok p h1 h16, hw]
    simpa [HIGH, LOW] using h

/-- Round trip on the native-pin interface. -/
theorem roundtrip_pi (s : PiState) (p : Int)
    (hval : PiInterface.validate_port_number p = Except.ok ())
    (hreg : pyGet s.in_out_registry p = Except.ok (some Dir.output)) :
    PiInterface.get_value (PiInterface.set_high s p).1 p = Except.ok HIGH ∧
    PiInterface.get_value (PiInterface.set_low s p).1 p = Except.ok LOW := by
  have hw : PiInterface.validate_write_port_number s p = Except.ok () := by
    unfold PiInterface.validate_write_port_number
    rw [hreg]
    simp
  constructor <;>
    simp [PiInterface.set_high, PiInterface.set_low, hval, hw, PiInterface.gpio_output,
      PiInterface.get_value, IS_NO_HARDWARE_MODE, GpioHw.output, HIGH, LOW]

theorem get_events_thread_registry (s : MCPState) :
    (MCP23017.get_events_thread s).1.in_out_registry = s.in_out_registry := by
  unfold MCP23017.get_events_thread
  split <;> rfl

theorem mcp_set_high_frame (s : MCPState) (p : Int) :
    (MCP23017.set_high s p).1.in_out_registry = s.in_out_registry ∧
    (MCP23017.set_high s p).1.read_events_thread = s.read_events_thread := by
  unfold MCP23017.set_high
  split
  · exact ⟨rfl, rfl⟩
  · split
    · exact ⟨rfl, rfl⟩
    · exact ⟨rfl, rfl⟩

theorem mcp_set_low_frame (s : MCPState) (p : Int) :
    (MCP23017.set_low s p).1.in_out_registry = s.in_out_registry ∧
    (MCP23017.set_low s p).1.read_events_thread = s.read_events_thread := by
  unfold MCP23017.set_low
  split
  · exact ⟨rfl, rfl⟩
  · split
    · exact ⟨rfl, rfl⟩
    · exact ⟨rfl, rfl⟩

theorem mcp_add_event_registry (s : MCPState) (p : Int) (rcb fcb : Option Nat) :
    (MCP23017.add_event s p rcb fcb).1.in_out_registry = s.in_out_registry := by
  unfold MCP23017.add_event
  split
  · rfl
  · split
    next s1 e heq =>
      have h := get_events_thread_registry s
      rw [heq] at h
      exact h
    next s1 t heq =>
      have hs1 : s1.in_out_registry = s.in_out_registry := by
        have h := get_events_thread_registry s
        rw [heq] at h
        exact h
      repeat' split
      all_goals exact hs1

theorem mcp_clear_read_events_registry (s : MCPState) (p : Int) :
    (MCP23017.clear_read_events s p).1.in_out_registry = s.in_out_registry := by
  unfold MCP23017.clear_read_events
  split
  next s1 e heq =>
    have h := get_events_thread_registry s
    rw [heq] at h
    exact h
  next s1 t heq =>
    have hs1 : s1.in_out_registry = s.in_out_registry := by
      have h := get_events_thread_registry s
      rw [heq] at h
      exact h
    split
    · exact hs1
    · dsimp only
      split <;> exact hs1

theorem pi_set_high_frame (s : PiState) (p : Int) :
    (PiInterface.set_high s p).1.in_out_registry = s.in_out_registry ∧
    (PiInterface.set_high s p).1.port_listeners = s.port_listeners ∧
    (PiInterface.set_high s p).1.gpio_events = s.gpio_events := by
  unfold PiInterface.set_high PiInterface.gpio_output
  repeat' split
  all_goals exact ⟨rfl, rfl, rfl⟩

theorem pi_set_low_frame (s : PiState) (p : Int) :
    (PiInterface.set_low s p).1.in_out_registry = s.in_out_registry ∧
    (PiInterface.set_low s p).1.port_listeners = s.port_listeners ∧
    (PiInterface.set_low s p).1.gpio_events = s.gpio_events := by
  unfold PiInterface.set_low PiInterface.gpio_output
  repeat' split
  all_goals exact ⟨rfl, rfl, rfl⟩

theorem pi_add_event_registry (s : PiState) (p : Int) (rcb fcb : Option Nat) :
    (PiInterface.add_event s p rcb fcb).1.in_out_registry = s.in_out_registry := by
  unfold PiInterface.add_event
  repeat' split
  all_goals rfl

theorem pi_clear_read_events_registry (s : PiState) (p : Int) :
    (PiInterface.clear_read_events s p).1.in_out_registry = s.in_out_registry := by
  unfold PiInterface.clear_read_events
  dsimp only
  split <;> rfl

/-- Whenever `clear_read_events` succeeds, any listener still stored for the
cleared port has both callback lists empty. -/
theorem clear_read_events_clears (s : MCPState) (p : Int) (l : PortListener)
    (hok : (MCP23017.clear_read_events s p).2 = Except.ok ())
    (hl : dictFind (MCP23017.thread_listeners (MCP23017.clear_read_events s p).1) p = some l) :
    l.rising_callbacks = [] ∧ l.falling_callbacks = [] := by
  unfold MCP23017.clear_read_events MCP23017.get_events_thread at hok hl
  cases hrt : s.read_events_thread with
  | none =>
      rw [hrt] at hok
      simp at hok
  | some t =>
      rw [hrt] at hok hl
      cases hv : MCP23017.validate_port_number p with
      | error e =>
          rw [hv] at hok
          simp at hok
      | ok u =>
          rw [hv] at hl
          dsimp only at hl
          by_cases hh : (t.clear_events p).has_any_events = true
          · rw [if_pos hh] at hl
            unfold MCP23017.thread_listeners at hl
            dsimp only at hl
            unfold ListenerThread.clear_events at hl
            cases hf : dictFind t.listeners_by_port_number p with
            | none =>
                rw [hf] at hl
                dsimp only at hl
                rw [hf] at hl
                simp at hl
            | some x =>
                rw [hf] at hl
                dsimp only at hl
                rw [dictFind_dictUpdate, hf] at hl
                simp at hl
                subst hl
                exact ⟨rfl, rfl⟩
          · rw [if_neg hh] at hl
            unfold MCP23017.thread_listeners at hl
            dsimp only at hl
            simp [dictFind] at hl

/-- C1: the spec claims that for every expander port with a registered
rising (resp. falling) callback, a sustained level change makes the engine
invoke each matching-direction callback exactly once with (port, new
level).  The code cannot deliver this: the first `add_event` on an
engine-less interface raises AttributeError while starting the engine
(`run()` reads the never-assigned `_stop`), and even with an engine
attached `add_event` reports success while `on_rising` adds the callback
to a discarded temporary `_PortListener` (the `dict.get` default is never
stored), so the listener dict stays empty and a tick under a sustained
LOW→HIGH signal performs no invocation — not exactly one. -/
theorem C1_registration_lost_no_invocation :
    (MCP23017.add_event mcpSampleIn1 1 (some 7) none).2 = Except.error PyError.attributeError ∧
    MCP23017.thread_listeners (MCP23017.add_event mcpSampleIn1 1 (some 7) none).1 = [] ∧
    (MCP23017.add_event mcpSampleIn1T 1 (some 7) none).2 = Except.ok () ∧
    MCP23017.thread_listeners (MCP23017.add_event mcpSampleIn1T 1 (some 7) none).1 = [] ∧
    (ListenerThread.new.tick (fun _ => HIGH) (fun _ => HIGH)).2 = [] :=
  ⟨by decide, by decide, by decide, by decide, by decide⟩

/-- C2: the spec claims a level change that reverts within the debounce
window never invokes any registered callback, on that tick or later, and
the port stays in its original stable state.  The code commits
`last_read_value` in `get_callbacks_to_trigger` before the debounce
re-read: a HIGH→LOW→HIGH glitch on a port with a rising callback produces
no invocation on the glitch tick but leaves `last_read_value` = LOW, so
the very next tick classifies LOW→HIGH as a rising edge, survives the
debounce re-read (the level is steadily HIGH) and fires the rising
callback, although the level never changed in a sustained way. -/
theorem C2_glitch_triggers_spurious_rising :
    (glitchThread.tick (fun _ => LOW) (fun _ => HIGH)).2 = [] ∧
    (glitchThread.tick (fun _ => LOW) (fun _ => HIGH)).1.listeners_by_port_number =
      [(1, { port_number := 1, last_read_value := LOW,
             rising_callbacks := [7], falling_callbacks := [] })] ∧
    ((glitchThread.tick (fun _ => LOW) (fun _ => HIGH)).1.tick
        (fun _ => HIGH) (fun _ => HIGH)).2 =
      [{ callback := 7, port_number := 1, value := HIGH }] :=
  ⟨by decide, by decide, by decide⟩

/-- C3: the spec claims that emptying the listener set stops and discards
the engine and that a subsequent `add_event` creates and starts a fresh
engine.  Stopping and discarding do happen (the slot is cleared and
`stop` sets the flag on the discarded thread), and `add_event` does create
a fresh `_MCP23017ListenerThread` and place it in the slot — but starting
it raises AttributeError (`run()`, called directly instead of `start()`,
reads the never-assigned `_stop`), so no fresh engine ever runs. -/
theorem C3_engine_restart_crashes :
    (MCP23017.clear_read_events mcpSampleIn1T 1).2 = Except.ok () ∧
    (MCP23017.clear_read_events mcpSampleIn1T 1).1.read_events_thread = none ∧
    (ListenerThread.stop ListenerThread.new).stop_flag = some true ∧
    (MCP23017.add_event (MCP23017.clear_read_events mcpSampleIn1T 1).1 1 (some 7) none).2 =
      Except.error PyError.attributeError ∧
    (MCP23017.add_event (MCP23017.clear_read_events mcpSampleIn1T 1).1
        1 (some 7) none).1.read_events_thread = some ListenerThread.new :=
  ⟨by decide, by decide, by decide, by decide, by decide⟩

/-- C4: the codec composes the bank byte with the lowest port of the bank
in the least significant bit: bit `i` is the written value when
`start_port_number + i` is the target port and the sibling getter's value
otherwise; writing HIGH to port 3 with all bank-A siblings LOW produces
exactly 0b00000100 = 4; and every write to ports 9–16 targets bank B's
register 0x15, never bank A's 0x14. -/
theorem C4_codec_byte_composition :
    (∀ (p : Int) (v : Nat) (g : Int → Nat) (i : Nat), i < 8 →
        MCP23017.get_binary_string_for_value p v g / 2 ^ i % 2 =
          (if MCP23017.start_port_number p + (i : Int) = p then (if v = HIGH then 1 else 0)
           else (if g (MCP23017.start_port_number p + (i : Int)) = HIGH then 1 else 0)))
    ∧ MCP23017.get_binary_string_for_value 3 HIGH (fun _ => LOW) = 4
    ∧ (∀ p : Int, 9 ≤ p → p ≤ 16 →
        MCP23017.get_write_register p = 0x15 ∧ MCP23017.get_write_register p ≠ 0x14) := by
  refine ⟨fun p v g i hi => binary_string_bit p v g i hi, by decide, ?_⟩
  intro p h9 h16
  have hpart : MCP23017.get_part p = Part.B := by
    unfold MCP23017.get_part
    rw [if_neg (by omega)]
  constructor
  · unfold MCP23017.get_write_register
    rw [hpart]
  · unfold MCP23017.get_write_register
    rw [hpart]
    decide

/-- Witness for C4 at port 3 / bit 2 and port 9. -/
theorem C4_witness :
    MCP23017.get_binary_string_for_value 3 HIGH (fun _ => LOW) / 2 ^ 2 % 2 = 1 ∧
    MCP23017.get_write_register 9 = 0x15 :=
  ⟨by rw [C4_codec_byte_composition.1 3 HIGH (fun _ => LOW) 2 (by decide)]; decide,
   (C4_codec_byte_composition.2.2 9 (by decide) (by decide)).1⟩

/-- C5: for every valid output-configured port on either variant, write
HIGH followed by a read returns HIGH and write LOW followed by a read
returns LOW, the bus/pin collaborators reading back the latched state. -/
theorem C5_write_read_roundtrip :
    (∀ (s : MCPState) (p : Int), 1 ≤ p → p ≤ 16 →
        pyGet s.in_out_registry p = Except.ok (some Dir.output) →
        MCP23017.get_value (MCP23017.set_high s p).1 p = Except.ok HIGH ∧
        MCP23017.get_value (MCP23017.set_low s p).1 p = Except.ok LOW)
    ∧ (∀ (s : PiState) (p : Int), PiInterface.validate_port_number p = Except.ok () →
        pyGet s.in_out_registry p = Except.ok (some Dir.output) →
        PiInterface.get_value (PiInterface.set_high s p).1 p = Except.ok HIGH ∧
        PiInterface.get_value (PiInterface.set_low s p).1 p = Except.ok LOW) :=
  ⟨fun s p h1 h16 hreg => roundtrip_mcp s p h1 h16 hreg,
   fun s p hval hreg => roundtrip_pi s p hval hreg⟩

/-- Witness for C5 on expander ports 3 (bank A) and 11 (bank B) and native
port 7. -/
theorem C5_witness :
    MCP23017.get_value (MCP23017.set_high mcpSampleOut 3).1 3 = Except.ok HIGH ∧
    MCP23017.get_value (MCP23017.set_low mcpSampleOut 11).1 11 = Except.ok LOW ∧
    PiInterface.get_value (PiInterface.set_high piOut7 7).1 7 = Except.ok HIGH ∧
    PiInterface.get_value (PiInterface.set_low piOut7 7).1 7 = Except.ok LOW :=
  ⟨(C5_write_read_roundtrip.1 mcpSampleOut 3 (by decide) (by decide) (by decide)).1,
   (C5_write_read_roundtrip.1 mcpSampleOut 11 (by decide) (by decide) (by decide)).2,
   (C5_write_read_roundtrip.2 piOut7 7 (by decide) (by decide)).1,
   (C5_write_read_roundtrip.2 piOut7 7 (by decide) (by decide)).2⟩

/-- C6 (amended): on the expander interface, whenever `set_as_output`
completes successfully, any listener still stored for that port has both
callback lists empty, so no previously registered callback on that port
can fire afterwards.  On the native-pin interface the original claim
fails — `set_as_output` leaves the listener registries untouched (see the
counterexample). -/
theorem C6_expander_output_clears_listeners (s : MCPState) (p : Int) (l : PortListener)
    (hok : (MCP23017.set_as_output s p).2 = Except.ok ())
    (hl : dictFind (MCP23017.thread_listeners (MCP23017.set_as_output s p).1) p = some l) :
    l.rising_callbacks = [] ∧ l.falling_callbacks = [] := by
  unfold MCP23017.set_as_output at hok hl
  cases hv : MCP23017.validate_port_number p with
  | error e =>
      rw [hv] at hok
      simp at hok
  | ok u =>
      rw [hv] at hok hl
      exact clear_read_events_clears _ p l hok hl

/-- Witness for the amended C6: clearing the registered rising callback of
port 2 on `mcpSampleListener2`. -/
theorem C6_witness :
    ({ port_number := 2, last_read_value := LOW, rising_callbacks := [],
       falling_callbacks := [] } : PortListener).rising_callbacks = [] ∧
    ({ port_number := 2, last_read_value := LOW, rising_callbacks := [],
       falling_callbacks := [] } : PortListener).falling_callbacks = [] :=
  C6_expander_output_clears_listeners mcpSampleListener2 2
    { port_number := 2, last_read_value := LOW, rising_callbacks := [],
      falling_callbacks := [] } (by decide) (by decide)

/-- C6 counterexample: on the native-pin interface a rising callback
registered on input port 7 survives `set_as_output 7` — the listener dict
still holds it with its callback list intact and the gpio event
registration is still in place, refuting the claim that setting a port as
output removes all previously registered edge callbacks on every
interface variant.  The surviving registration is also observable at
dispatch time: with the callback still registered, the collaborator's
dispatch raises AttributeError (`get_callbacks_to_trigger` evaluates the
undefined `self.port.interface`), whereas a listener whose callbacks had
actually been removed returns harmlessly without touching that
attribute. -/
theorem C6_counterexample_pi_listener_survives_output :
    (PiInterface.set_as_output (PiInterface.add_event piIn7 7 (some 5) none).1 7).2 =
      Except.ok () ∧
    dictFind (PiInterface.set_as_output
        (PiInterface.add_event piIn7 7 (some 5) none).1 7).1.port_listeners 7 =
      some { port_number := 7, last_read_value := LOW,
             rising_callbacks := [5], falling_callbacks := [] } ∧
    (PiInterface.set_as_output (PiInterface.add_event piIn7 7 (some 5) none).1 7).1.gpio_events =
      [7] ∧
    PiPortListener.trigger_callbacks
        { port_number := 7, last_read_value := LOW,
          rising_callbacks := [5], falling_callbacks := [] } HIGH =
      Except.error PyError.attributeError ∧
    PiPortListener.trigger_callbacks
        { port_number := 7, last_read_value := LOW,
          rising_callbacks := [], falling_callbacks := [] } HIGH =
      Except.ok [] :=
  ⟨by decide, by decide, by decide, by decide, by decide⟩

/-- C7 (amended): writing a level to an input-configured port fails with
InvalidPortNumberError and no state change on both variants, and
registering edge callbacks on an output-configured port fails that way
(with no listener added) on the expander variant — the native variant
performs no direction check on registration (see the counterexample). -/
theorem C7_direction_mismatch_errors :
    (∀ (s : MCPState) (p : Int), pyGet s.in_out_registry p = Except.ok (some Dir.input) →
        MCP23017.set_high s p = (s, Except.error PyError.invalidPortNumber) ∧
        MCP23017.set_low s p = (s, Except.error PyError.invalidPortNumber))
    ∧ (∀ (s : PiState) (p : Int), pyGet s.in_out_registry p = Except.ok (some Dir.input) →
        PiInterface.set_high s p = (s, Except.error PyError.invalidPortNumber) ∧
        PiInterface.set_low s p = (s, Except.error PyError.invalidPortNumber))
    ∧ (∀ (s : MCPState) (p : Int) (rcb fcb : Option Nat),
        pyGet s.in_out_registry p = Except.ok (some Dir.output) →
        MCP23017.add_event s p rcb fcb = (s, Except.error PyError.invalidPortNumber)) := by
  refine ⟨?_, ?_, ?_⟩
  · intro s p hreg
    have hw : MCP23017.validate_write_port_number s p =
        Except.error PyError.invalidPortNumber := by
      unfold MCP23017.validate_write_port_number
      rw [hreg]
      simp
    constructor
    · unfold MCP23017.set_high
      cases hv : MCP23017.validate_port_number p with
      | error e => simp [hv, mcp_validate_error p e hv]
      | ok u => simp [hv, hw]
    · unfold MCP23017.set_low
      cases hv : MCP23017.validate_port_number p with
      | error e => simp [hv, mcp_validate_error p e hv]
      | ok u => simp [hv, hw]
  · intro s p hreg
    have hw : PiInterface.validate_write_port_number s p =
        Except.error PyError.invalidPortNumber := by
      unfold PiInterface.validate_write_port_number
      rw [hreg]
      simp
    constructor
    · unfold PiInterface.set_high
      cases hv : PiInterface.validate_port_number p with
      | error e => simp [hv, pi_validate_error p e hv]
      | ok u => simp [hv, hw]
    · unfold PiInterface.set_low
      cases hv : PiInterface.validate_port_number p with
      | error e => simp [hv, pi_validate_error p e hv]
      | ok u => simp [hv, hw]
  · intro s p rcb fcb hreg
    have hlv : MCP23017.validate_listen_port_number s p =
        Except.error PyError.invalidPortNumber := by
      unfold MCP23017.validate_listen_port_number
      rw [hreg]
      simp
    unfold MCP23017.add_event
    simp [hlv]

/-- Witness for the amended C7: writing to input port 1 (expander) and
input port 7 (native), and registering on output port 3 (expander). -/
theorem C7_witness :
    MCP23017.set_high mcpSampleIn1 1 = (mcpSampleIn1, Except.error PyError.invalidPortNumber) ∧
    PiInterface.set_low piIn7 7 = (piIn7, Except.error PyError.invalidPortNumber) ∧
    MCP23017.add_event mcpSampleOut 3 (some 0) none =
      (mcpSampleOut, Except.error PyError.invalidPortNumber) :=
  ⟨(C7_direction_mismatch_errors.1 mcpSampleIn1 1 (by decide)).1,
   (C7_direction_mismatch_errors.2.1 piIn7 7 (by decide)).2,
   C7_direction_mismatch_errors.2.2 mcpSampleOut 3 (some 0) none (by decide)⟩

/-- C7 counterexample: on the native-pin interface, `add_event` on
output-configured port 7 succeeds and stores a listener carrying the
callback, refuting the claim that edge registration on an
output-configured port always fails with no listener added. -/
theorem C7_counterexample_pi_add_event_on_output :
    pyGet piOut7.in_out_registry 7 = Except.ok (some Dir.output) ∧
    (PiInterface.add_event piOut7 7 (some 3) none).2 = Except.ok () ∧
    dictFind (PiInterface.add_event piOut7 7 (some 3) none).1.port_listeners 7 =
      some { port_number := 7, last_read_value := LOW,
             rising_callbacks := [3], falling_callbacks := [] } :=
  ⟨by decide, by decide, by decide⟩

/-- C8: the spec claims a fixed validation order (bounds, then reserved,
then direction) and that an out-of-range port number is always reported as
an invalid-port-number error.  `MCP23017.add_event` checks the direction
registry first, with no bounds check: for the out-of-range port 17 the
registry subscript raises IndexError — a different failure from the
InvalidPortNumberError that `_validate_port_number` reports for 17. -/
theorem C8_out_of_range_add_event_index_error :
    (MCP23017.add_event mcpSampleOut 17 (some 0) none).2 = Except.error PyError.indexError ∧
    (MCP23017.add_event mcpSampleOut 17 (some 0) none).1 = mcpSampleOut ∧
    MCP23017.validate_port_number 17 = Except.error PyError.invalidPortNumber :=
  ⟨by decide, rfl, by decide⟩

/-- C9: the spec claims construction of either variant completes with every
declared port configured as output and driven LOW.  MCP23017 construction
instead raises AttributeError: the first port's initialisation runs
`set_as_output`, whose `clear_read_events` starts the fresh listener
thread with `run()`, which reads the never-assigned `_stop` (module import
is itself already broken: mcp.py imports IS_NO_HARDWARE_MODE and
READ_SWITCH_DEBOUNCE from base, which defines them only inside Settings).
The PiInterface half of the claim holds: construction succeeds and every
declared non-reserved port 1..40 ends up OUTPUT with its pin LOW, while
index 0 and the reserved ports keep an unset direction. -/
theorem C9_construction :
    MCP23017.construct.2 = Except.error PyError.attributeError ∧
    PiInterface.construct.2 = Except.ok () ∧
    ((List.range 41).all (fun n =>
        if PiInterface.port_exists n then
          decide (pyGet PiInterface.construct.1.in_out_registry (n : Int) =
              Except.ok (some Dir.output)) &&
          decide (PiInterface.construct.1.hw.pins (n : Int) = LOW)
        else
          decide (pyGet PiInterface.construct.1.in_out_registry (n : Int) =
              Except.ok none))) = true :=
  ⟨by decide, by decide, by decide⟩

/-- C10: `set_high` and `set_low` leave the direction registry and every
edge-listener registry unchanged on both variants, on every execution path
(validation failures included); and among the other mutating operations,
neither `add_event` nor `clear_read_events` modifies a direction registry
entry — only `set_as_input` and `set_as_output` do. -/
theorem C10_set_level_frame :
    ∀ (s : MCPState) (t : PiState) (p : Int) (rcb fcb : Option Nat),
      (MCP23017.set_high s p).1.in_out_registry = s.in_out_registry ∧
      (MCP23017.set_high s p).1.read_events_thread = s.read_events_thread ∧
      (MCP23017.set_low s p).1.in_out_registry = s.in_out_registry ∧
      (MCP23017.set_low s p).1.read_events_thread = s.read_events_thread ∧
      (PiInterface.set_high t p).1.in_out_registry = t.in_out_registry ∧
      (PiInterface.set_high t p).1.port_listeners = t.port_listeners ∧
      (PiInterface.set_high t p).1.gpio_events = t.gpio_events ∧
      (PiInterface.set_low t p).1.in_out_registry = t.in_out_registry ∧
      (PiInterface.set_low t p).1.port_listeners = t.port_listeners ∧
      (PiInterface.set_low t p).1.gpio_events = t.gpio_events ∧
      (MCP23017.add_event s p rcb fcb).1.in_out_registry = s.in_out_registry ∧
      (MCP23017.clear_read_events s p).1.in_out_registry = s.in_out_registry ∧
      (PiInterface.add_event t p rcb fcb).1.in_out_registry = t.in_out_registry ∧
      (PiInterface.clear_read_events t p).1.in_out_registry = t.in_out_registry :=
  fun s t p rcb fcb =>
    ⟨(mcp_set_high_frame s p).1, (mcp_set_high_frame s p).2,
     (mcp_set_low_frame s p).1, (mcp_set_low_frame s p).2,
     (pi_set_high_frame t p).1, (pi_set_high_frame t p).2.1, (pi_set_high_frame t p).2.2,
     (pi_set_low_frame t p).1, (pi_set_low_frame t p).2.1, (pi_set_low_frame t p).2.2,
     mcp_add_event_registry s p rcb fcb,
     mcp_clear_read_events_registry s p,
     pi_add_event_registry t p rcb fcb,
     pi_clear_read_events_registry t p⟩

end Iowrap
